import Mathlib

/-
  Shallow embedding of holoviews/plotting/bokeh/plot.py.

  The Python module arranges element plots in grids, layouts and tabs on
  top of the bokeh model API.  The definitions below translate the parts
  of that module needed by the verified properties: the grid coordinate
  arithmetic of GridPlot, the axis sharing kwargs, the datasource update
  and synchronisation logic of BokehPlot, the tab assembly of
  LayoutPlot, the per coordinate subplot creation steps, and the frame
  update traversals.

  Python dictionaries are modelled as association lists with dict.update
  semantics, bokeh models as a small inductive type, and the plots
  matrix of GridPlot.initialize_plot as a function on coordinates.
-/

namespace HoloviewsBokehPlot

/-- Membership test of a key in a Python dict modelled as an association list. -/
def dict_member {α : Type} (d : List (String × α)) (k : String) : Bool :=
  d.any (fun kv => kv.1 == k)

/-- Lookup in a Python dict modelled as an association list (first match wins). -/
def dict_lookup {α : Type} (d : List (String × α)) (k : String) : Option α :=
  match d with
  | [] => none
  | kv :: rest => if kv.1 == k then some kv.2 else dict_lookup rest k

/-- Python dict.update with another dict: keys already present keep their
position and take the new value, keys only present in the update are
appended in their own order. -/
def dict_update {α : Type} (src new : List (String × α)) : List (String × α) :=
  src.map (fun kv =>
    match dict_lookup new kv.1 with
    | some v => (kv.1, v)
    | none => kv)
    ++ new.filter (fun kv => ! dict_member src kv.1)

lemma dict_member_false_lookup {α : Type} (d : List (String × α)) (k : String)
    (h : dict_member d k = false) : dict_lookup d k = none := by
  induction d with
  | nil => rfl
  | cons kv d ih =>
      have h2 : ((kv.1 == k) || dict_member d k) = false := h
      rw [Bool.or_eq_false_iff] at h2
      simp only [dict_lookup, h2.1, Bool.false_eq_true, if_false]
      exact ih h2.2

lemma dict_lookup_none_member {α : Type} (d : List (String × α)) (k : String)
    (h : dict_lookup d k = none) : dict_member d k = false := by
  induction d with
  | nil => rfl
  | cons kv d ih =>
      simp only [dict_lookup] at h
      cases hbeq : kv.1 == k
      · rw [hbeq] at h
        simp only [Bool.false_eq_true, if_false] at h
        show ((kv.1 == k) || dict_member d k) = false
        rw [hbeq, ih h]
        rfl
      · rw [hbeq] at h
        simp at h

lemma dict_member_true_lookup {α : Type} (d : List (String × α)) (k : String)
    (h : dict_member d k = true) : ∃ v, dict_lookup d k = some v := by
  cases hl : dict_lookup d k with
  | some v => exact ⟨v, rfl⟩
  | none => rw [dict_lookup_none_member d k hl] at h; exact absurd h (by simp)

lemma dict_lookup_append {α : Type} (d1 d2 : List (String × α)) (k : String) :
    dict_lookup (d1 ++ d2) k =
      match dict_lookup d1 k with
      | some v => some v
      | none => dict_lookup d2 k := by
  induction d1 with
  | nil => rfl
  | cons kv d1 ih =>
      simp only [List.cons_append, dict_lookup]
      cases hbeq : kv.1 == k
      · simpa [hbeq] using ih
      · simp [hbeq]

lemma dict_lookup_map_update {α : Type} (new : List (String × α)) (k : String) :
    ∀ (src : List (String × α)),
      dict_lookup (src.map (fun kv =>
          match dict_lookup new kv.1 with
          | some v => (kv.1, v)
          | none => kv)) k =
        (dict_lookup src k).map (fun v => (dict_lookup new k).getD v) := by
  intro src
  induction src with
  | nil => rfl
  | cons kv src ih =>
      obtain ⟨k1, v1⟩ := kv
      by_cases hk : k1 = k
      · subst hk
        cases hnew : dict_lookup new k1 with
        | some w => simp [dict_lookup, hnew]
        | none => simp [dict_lookup, hnew]
      · have hbeq : (k1 == k) = false := by simpa using hk
        cases hnew : dict_lookup new k1 with
        | some w => simpa [dict_lookup, hnew, hbeq] using ih
        | none => simpa [dict_lookup, hnew, hbeq] using ih

lemma dict_lookup_filter_keys {α : Type} (p : String → Bool) (k : String) :
    ∀ (d : List (String × α)),
      dict_lookup (d.filter (fun kv => p kv.1)) k =
        if p k then dict_lookup d k else none := by
  intro d
  induction d with
  | nil => simp [dict_lookup]
  | cons kv d ih =>
      obtain ⟨k1, v1⟩ := kv
      by_cases hk : k1 = k
      · subst hk
        cases hp : p k1 <;> simp [List.filter_cons, hp, dict_lookup, ih]
      · have hbeq : (k1 == k) = false := by simpa using hk
        cases hp : p k1 <;> simp [List.filter_cons, hp, dict_lookup, hbeq, ih]

/-- Looking up a key absent from the update dict gives the old value. -/
lemma dict_update_lookup_absent {α : Type} (src new : List (String × α))
    (k : String) (h : dict_member new k = false) :
    dict_lookup (dict_update src new) k = dict_lookup src k := by
  unfold dict_update
  rw [dict_lookup_append, dict_lookup_map_update,
    dict_lookup_filter_keys (fun s => ! dict_member src s) k new,
    dict_member_false_lookup new k h]
  cases hsrc : dict_lookup src k with
  | some v => rfl
  | none => cases dict_member src k <;> simp

/-- Looking up a key present in the update dict gives the new value. -/
lemma dict_update_lookup_present {α : Type} (src new : List (String × α))
    (k : String) (h : dict_member new k = true) :
    dict_lookup (dict_update src new) k = dict_lookup new k := by
  obtain ⟨w, hw⟩ := dict_member_true_lookup new k h
  unfold dict_update
  rw [dict_lookup_append, dict_lookup_map_update,
    dict_lookup_filter_keys (fun s => ! dict_member src s) k new]
  cases hsrc : dict_lookup src k with
  | some v => simp [hw]
  | none =>
      have hm : dict_member src k = false := dict_lookup_none_member src k hsrc
      simp [hm]

/-
  GridPlot coordinate assignment (plot.py lines 489-491 and 561-563).
  Both GridPlot._create_subplots and GridPlot.initialize_plot enumerate
  layout.keys(full_grid=True) and compute r = i % self.rows and
  c = i // self.rows for the i-th key.
-/

/-- Row and column assigned to the i-th full grid key in
GridPlot._create_subplots: r = i % self.rows, c = i // self.rows. -/
def GridPlot.create_subplots_rc (rows i : Nat) : Nat × Nat :=
  (i % rows, i / rows)

/-- Row and column assigned to the i-th full grid key in
GridPlot.initialize_plot: r = i % self.rows, c = i // self.rows. -/
def GridPlot.initialize_plot_rc (rows i : Nat) : Nat × Nat :=
  (i % rows, i / rows)

/-- The fill loop of GridPlot.initialize_plot: for the i-th key the
subplot looked up for that key, when present, is written to the plots
matrix at row i % rows and column i // rows.  The matrix is modelled as
a function on (row, column) pairs. -/
def GridPlot.initialize_plot_fill {α β : Type} [DecidableEq α] (rows : Nat)
    (subplots : α → Option β) :
    List α → Nat → (Nat × Nat → Option β) → (Nat × Nat → Option β)
  | [], _, g => g
  | k :: ks, i, g =>
      GridPlot.initialize_plot_fill rows subplots ks (i + 1)
        (fun rc =>
          match subplots k with
          | some p => if rc = (i % rows, i / rows) then some p else g rc
          | none => g rc)

/-- The plots matrix built by GridPlot.initialize_plot, starting from a
matrix of None entries. -/
def GridPlot.initialize_plot_plots {α β : Type} [DecidableEq α] (rows : Nat)
    (keys : List α) (subplots : α → Option β) : Nat × Nat → Option β :=
  GridPlot.initialize_plot_fill rows subplots keys 0 (fun _ => none)

lemma col_major_mod (rows r c : Nat) (hr : r < rows) : (c * rows + r) % rows = r := by
  rw [Nat.mul_comm c rows, Nat.mul_add_mod]
  exact Nat.mod_eq_of_lt hr

lemma col_major_div (rows r c : Nat) (hr : r < rows) : (c * rows + r) / rows = c := by
  rw [Nat.mul_comm c rows, Nat.mul_add_div (Nat.lt_of_le_of_lt (Nat.zero_le r) hr)]
  simp [Nat.div_eq_of_lt hr]

lemma coord_eq_iff (rows r c i : Nat) (hr : r < rows) :
    ((i % rows, i / rows) = (r, c)) ↔ i = c * rows + r := by
  constructor
  · intro h
    have h1 : i % rows = r := (Prod.mk.injEq _ _ _ _).mp h |>.1
    have h2 : i / rows = c := (Prod.mk.injEq _ _ _ _).mp h |>.2
    have hdm := Nat.div_add_mod i rows
    rw [h1, h2] at hdm
    rw [← hdm]
    ring
  · intro h
    subst h
    rw [col_major_mod rows r c hr, col_major_div rows r c hr]

/-- When no later index writes to (r, c), the fill loop leaves the cell
unchanged. -/
lemma initialize_plot_fill_miss {α β : Type} [DecidableEq α] (rows : Nat)
    (subplots : α → Option β) (r c : Nat) (hr : r < rows) :
    ∀ (ks : List α) (i : Nat) (g : Nat × Nat → Option β),
      (c * rows + r < i ∨ i + ks.length ≤ c * rows + r) →
      GridPlot.initialize_plot_fill rows subplots ks i g (r, c) = g (r, c) := by
  intro ks
  induction ks with
  | nil => intro i g _; rfl
  | cons k ks ih =>
      intro i g hout
      simp only [GridPlot.initialize_plot_fill]
      have hne : ¬ ((r, c) = (i % rows, i / rows)) := by
        intro h
        have : i = c * rows + r := (coord_eq_iff rows r c i hr).mp h.symm
        simp only [List.length_cons] at hout
        omega
      have hstep :
          (fun rc =>
            match subplots k with
            | some p => if rc = (i % rows, i / rows) then some p else g rc
            | none => g rc) (r, c) = g (r, c) := by
        cases subplots k with
        | some p => simp [hne]
        | none => rfl
      rw [ih (i + 1) _ (by simp only [List.length_cons] at hout; omega)]
      exact hstep

/-- The cell written for the key at index c * rows + r holds the subplot
of that key (or the incoming cell value when that key has no subplot). -/
lemma initialize_plot_fill_hit {α β : Type} [DecidableEq α] (rows : Nat)
    (subplots : α → Option β) (r c : Nat) (hr : r < rows) :
    ∀ (ks : List α) (i : Nat) (g : Nat × Nat → Option β),
      i ≤ c * rows + r → c * rows + r < i + ks.length →
      GridPlot.initialize_plot_fill rows subplots ks i g (r, c) =
        match ks.get? (c * rows + r - i) with
        | some k2 =>
            match subplots k2 with
            | some p => some p
            | none => g (r, c)
        | none => g (r, c) := by
  intro ks
  induction ks with
  | nil => intro i g hlo hhi; simp at hhi; omega
  | cons k ks ih =>
      intro i g hlo hhi
      simp only [GridPlot.initialize_plot_fill]
      by_cases hj : i = c * rows + r
      · have hidx : c * rows + r - i = 0 := by omega
        have hmem : ((r, c) : Nat × Nat) = (i % rows, i / rows) := by
          rw [hj, col_major_mod rows r c hr, col_major_div rows r c hr]
        rw [initialize_plot_fill_miss rows subplots r c hr ks (i + 1) _ (by omega)]
        simp only [hidx, List.get?]
        cases subplots k with
        | some p => simp [hmem]
        | none => rfl
      · have hlo2 : i + 1 ≤ c * rows + r := by omega
        have hhi2 : c * rows + r < (i + 1) + ks.length := by
          simp only [List.length_cons] at hhi; omega
        have hidx : c * rows + r - i = (c * rows + r - (i + 1)) + 1 := by omega
        have hne : ¬ ((r, c) = (i % rows, i / rows)) := by
          intro h
          exact hj ((coord_eq_iff rows r c i hr).mp h.symm)
        rw [ih (i + 1) _ hlo2 hhi2, hidx, List.get?_cons_succ]
        cases hsk : subplots k with
        | none => rfl
        | some p => simp [hne]

/-- C1: both GridPlot._create_subplots and GridPlot.initialize_plot
assign the i-th full grid key to row i % rows and column i // rows, the
grid is filled column major (index c * rows + r lands at (r, c)), and
the plots matrix built by initialize_plot holds at (r, c) the subplot
looked up for the key at index c * rows + r. -/
theorem grid_coord_assignment_column_major {α β : Type} [DecidableEq α]
    (rows cols : Nat) (keys : List α) (subplots : α → Option β) (r c : Nat)
    (hr : r < rows) (hc : c < cols) (hlen : keys.length = rows * cols) :
    (∀ i, GridPlot.create_subplots_rc rows i = GridPlot.initialize_plot_rc rows i)
    ∧ GridPlot.create_subplots_rc rows (c * rows + r) = (r, c)
    ∧ GridPlot.initialize_plot_plots rows keys subplots (r, c) =
        (keys.get? (c * rows + r)).bind subplots := by
  have hidx : c * rows + r < keys.length := by
    have hs : (c + 1) * rows = c * rows + rows := by ring
    have h2 : (c + 1) * rows ≤ cols * rows :=
      Nat.mul_le_mul_right rows (Nat.succ_le_of_lt hc)
    have hcomm : cols * rows = rows * cols := Nat.mul_comm _ _
    omega
  refine ⟨fun i => rfl, ?_, ?_⟩
  · unfold GridPlot.create_subplots_rc
    rw [col_major_mod rows r c hr, col_major_div rows r c hr]
  · unfold GridPlot.initialize_plot_plots
    rw [initialize_plot_fill_hit rows subplots r c hr keys 0 _ (Nat.zero_le _)
      (by omega)]
    simp only [Nat.sub_zero]
    cases hks : keys.get? (c * rows + r) with
    | none => simp
    | some k2 =>
        simp only [Option.some_bind]
        cases hsub : subplots k2 <;> simp

/-- Witness for C1 at rows = 2, cols = 2, keys = [10, 11, 12, 13],
subplots = some, r = 1, c = 1. -/
theorem grid_coord_assignment_column_major_witness :
    (∀ i, GridPlot.create_subplots_rc 2 i = GridPlot.initialize_plot_rc 2 i)
    ∧ GridPlot.create_subplots_rc 2 (1 * 2 + 1) = (1, 1)
    ∧ GridPlot.initialize_plot_plots 2 [10, 11, 12, 13] some (1, 1) =
        (List.get? [10, 11, 12, 13] (1 * 2 + 1)).bind some :=
  grid_coord_assignment_column_major 2 2 [10, 11, 12, 13] some 1 1
    (by decide) (by decide) (by decide)

/-
  BokehPlot._update_datasource, non streaming path (plot.py lines 209-218).
-/

/-- Value stored in a ColumnDataSource column: a list or numpy array
with its length, or any other unsized value.  decode_bytes preserves
keys and lengths, so it is not modelled separately. -/
inductive CDSVal where
  | sized (n : Nat)
  | other
deriving DecidableEq

/-- Lengths of the list and array valued columns of a data dict, in
order, as computed by _update_datasource. -/
def sized_lengths (d : List (String × CDSVal)) : List Nat :=
  d.filterMap (fun kv =>
    match kv.2 with
    | CDSVal.sized n => some n
    | CDSVal.other => none)

/-- Embeds the non streaming part of BokehPlot._update_datasource
(plot.py lines 209-218): with untouched the existing columns absent from
the new data and current_length, new_length the lengths of the list or
array valued columns, the data dict is replaced outright when untouched,
current_length and new_length are all nonempty and the first lengths
differ, and otherwise updated in place with dict.update. -/
def BokehPlot.update_datasource (sourceData newData : List (String × CDSVal)) :
    List (String × CDSVal) :=
  match (sourceData.map Prod.fst).filter (fun k => ! dict_member newData k),
      sized_lengths sourceData, sized_lengths newData with
  | _ :: _, a :: _, b :: _ =>
      if a ≠ b then newData else dict_update sourceData newData
  | _, _, _ => dict_update sourceData newData

/-- Replacement condition as the specification words it: at least one
existing column is absent from the new data, and the first existing list
or array column and the first new list or array column have different
lengths. -/
def spec_replace_condition (sourceData newData : List (String × CDSVal)) : Prop :=
  (∃ k, k ∈ sourceData.map Prod.fst ∧ dict_member newData k = false)
  ∧ (∃ a b, (sized_lengths sourceData).head? = some a
      ∧ (sized_lengths newData).head? = some b ∧ a ≠ b)

/-- C3: outside the streaming branch, _update_datasource wholly replaces
the data dict exactly under the condition the specification states; in
every other case it merges the new columns into the existing data with
dict.update, so every untouched existing column keeps its old value and
every new column carries its new value. -/
theorem update_datasource_replace_iff (sourceData newData : List (String × CDSVal)) :
    (spec_replace_condition sourceData newData →
      BokehPlot.update_datasource sourceData newData = newData)
    ∧ (¬ spec_replace_condition sourceData newData →
      BokehPlot.update_datasource sourceData newData = dict_update sourceData newData
        ∧ (∀ k, dict_member newData k = false →
            dict_lookup (BokehPlot.update_datasource sourceData newData) k
              = dict_lookup sourceData k)
        ∧ (∀ k, dict_member newData k = true →
            dict_lookup (BokehPlot.update_datasource sourceData newData) k
              = dict_lookup newData k)) := by
  constructor
  · rintro ⟨⟨k, hk, habs⟩, a, b, ha, hb, hab⟩
    unfold BokehPlot.update_datasource
    cases hU : (sourceData.map Prod.fst).filter (fun k => ! dict_member newData k) with
    | nil =>
        exfalso
        have hmem : k ∈ (sourceData.map Prod.fst).filter
            (fun k => ! dict_member newData k) := by
          rw [List.mem_filter]
          exact ⟨hk, by simp [habs]⟩
        rw [hU] at hmem
        exact absurd hmem (List.not_mem_nil k)
    | cons u us =>
        cases hC : sized_lengths sourceData with
        | nil => rw [hC] at ha; simp at ha
        | cons a0 as =>
            cases hN : sized_lengths newData with
            | nil => rw [hN] at hb; simp at hb
            | cons b0 bs =>
                rw [hC] at ha
                rw [hN] at hb
                simp only [List.head?_cons, Option.some.injEq] at ha hb
                subst ha
                subst hb
                simp [hab]
  · intro hn
    have hres : BokehPlot.update_datasource sourceData newData
        = dict_update sourceData newData := by
      unfold BokehPlot.update_datasource
      cases hU : (sourceData.map Prod.fst).filter (fun k => ! dict_member newData k) with
      | nil => rfl
      | cons u us =>
          cases hC : sized_lengths sourceData with
          | nil => rfl
          | cons a0 as =>
              cases hN : sized_lengths newData with
              | nil => rfl
              | cons b0 bs =>
                  have hcond : a0 = b0 := by
                    by_contra hne
                    apply hn
                    constructor
                    · have hu : u ∈ (sourceData.map Prod.fst).filter
                          (fun k => ! dict_member newData k) := by
                        rw [hU]
                        exact List.mem_cons_self u us
                      rw [List.mem_filter] at hu
                      exact ⟨u, hu.1, by simpa using hu.2⟩
                    · exact ⟨a0, b0, by rw [hC]; rfl, by rw [hN]; rfl, hne⟩
                  simp [hcond]
    refine ⟨hres, ?_, ?_⟩
    · intro k hk
      rw [hres]
      exact dict_update_lookup_absent sourceData newData k hk
    · intro k hk
      rw [hres]
      exact dict_update_lookup_present sourceData newData k hk

/-- Witness for C3 at a concrete source and update dict: column y is
absent from the new data and the first array lengths 2 and 3 differ, so
the data dict is wholly replaced. -/
theorem update_datasource_replace_iff_witness :
    BokehPlot.update_datasource
        [("x", CDSVal.sized 2), ("y", CDSVal.sized 2)]
        [("x", CDSVal.sized 3)]
      = [("x", CDSVal.sized 3)] :=
  (update_datasource_replace_iff
      [("x", CDSVal.sized 2), ("y", CDSVal.sized 2)]
      [("x", CDSVal.sized 3)]).1
    ⟨⟨"y", by decide, by decide⟩, 2, 3, by decide, by decide, by decide⟩

/-
  Axis sharing kwargs of GridPlot._create_subplots (plot.py lines 507-536).
-/

/-- Whether an axis entry has been placed in the kwargs dict; the only
axis value the grid code ever assigns is None. -/
inductive AxisOpt where
  | unset
  | pyNone
deriving DecidableEq

/-- The kwargs dict built for one grid cell in GridPlot._create_subplots. -/
structure GridKwargs where
  xaxis : AxisOpt
  yaxis : AxisOpt
  width : Option Nat
  height : Option Nat
  border : Option Nat
  show_legend : Bool
deriving DecidableEq

/-- Embeds the kwargs construction of GridPlot._create_subplots (plot.py
lines 507-536) for the cell at row r and column c. -/
def GridPlot.create_subplots_kwargs (shared_xaxis shared_yaxis : Bool)
    (plot_size axis_offset : Nat) (r c : Nat) : GridKwargs :=
  let offset := axis_offset
  let kwargs : GridKwargs := ⟨AxisOpt.unset, AxisOpt.unset, none, none, none, false⟩
  let kwargs := if c = 0 ∧ r ≠ 0 then
      { kwargs with xaxis := AxisOpt.pyNone, width := some (plot_size + offset) }
    else kwargs
  let kwargs := if c ≠ 0 ∧ r = 0 then
      { kwargs with yaxis := AxisOpt.pyNone, height := some (plot_size + offset) }
    else kwargs
  let kwargs := if c = 0 ∧ r = 0 then
      { kwargs with width := some (plot_size + offset),
                    height := some (plot_size + offset) }
    else kwargs
  let kwargs := if r ≠ 0 ∧ c ≠ 0 then
      { kwargs with xaxis := AxisOpt.pyNone, yaxis := AxisOpt.pyNone }
    else kwargs
  let kwargs := if kwargs.width = none ∨ shared_yaxis = false then
      { kwargs with width := some plot_size }
    else kwargs
  let kwargs := if kwargs.height = none ∨ shared_xaxis = false then
      { kwargs with height := some plot_size }
    else kwargs
  let kwargs := if kwargs.border = none then { kwargs with border := some 3 }
    else kwargs
  let kwargs := { kwargs with show_legend := false }
  let kwargs := if shared_xaxis = false then { kwargs with xaxis := AxisOpt.pyNone }
    else kwargs
  let kwargs := if shared_yaxis = false then { kwargs with yaxis := AxisOpt.pyNone }
    else kwargs
  kwargs

/-- C5: in GridPlot._create_subplots the x axis of a subplot is set to
None exactly when x axis sharing is off or the cell is not in grid row
0, and the y axis is set to None exactly when y axis sharing is off or
the cell is not in grid column 0. -/
theorem grid_axis_sharing (shared_xaxis shared_yaxis : Bool)
    (plot_size axis_offset r c : Nat) :
    ((GridPlot.create_subplots_kwargs shared_xaxis shared_yaxis
        plot_size axis_offset r c).xaxis = AxisOpt.pyNone
      ↔ (shared_xaxis = false ∨ r ≠ 0))
    ∧ ((GridPlot.create_subplots_kwargs shared_xaxis shared_yaxis
        plot_size axis_offset r c).yaxis = AxisOpt.pyNone
      ↔ (shared_yaxis = false ∨ c ≠ 0)) := by
  cases shared_xaxis <;> cases shared_yaxis <;>
    by_cases hr : r = 0 <;> by_cases hc : c = 0 <;>
      simp [GridPlot.create_subplots_kwargs, hr, hc]

/-- Witness for C5: with x sharing off and y sharing on, the cell at
row 1, column 0 loses its x axis and keeps its y axis. -/
theorem grid_axis_sharing_witness :
    ((GridPlot.create_subplots_kwargs false true 120 50 1 0).xaxis = AxisOpt.pyNone
      ↔ (false = false ∨ (1 : Nat) ≠ 0))
    ∧ ((GridPlot.create_subplots_kwargs false true 120 50 1 0).yaxis = AxisOpt.pyNone
      ↔ (true = false ∨ (0 : Nat) ≠ 0)) :=
  grid_axis_sharing false true 120 50 1 0

/-
  GridPlot.__init__ (plot.py lines 469-475).
-/

/-- The layout argument of GridPlot.__init__; isinstance(layout, GridSpace)
is recorded as a flag and layout.shape as the (cols, rows) pair. -/
structure PyLayoutArg where
  isGridSpaceInstance : Bool
  shape : Nat × Nat

/-- State built by GridPlot.__init__ when it succeeds: self.cols and
self.rows unpacked from layout.shape and the result of _create_subplots. -/
structure GridPlotInit (σ : Type) where
  cols : Nat
  rows : Nat
  subplots : σ

/-- Embeds GridPlot.__init__ (plot.py lines 469-475): a non GridSpace
layout raises before anything else runs; otherwise the shape is unpacked
and _create_subplots (passed in here as the computation create, which
may itself raise SkipRendering) builds the subplots. -/
def GridPlot.init {σ : Type} (layout : PyLayoutArg) (create : Except String σ) :
    Except String (GridPlotInit σ) :=
  if layout.isGridSpaceInstance = false then
    Except.error "GridPlot only accepts GridSpace."
  else
    match create with
    | Except.error e => Except.error e
    | Except.ok s => Except.ok ⟨layout.shape.1, layout.shape.2, s⟩

/-- C9: GridPlot.__init__ raises for every non GridSpace layout before
any subplot construction takes place (the outcome of create is never
inspected), and a successfully built GridPlot always stems from a
GridSpace layout. -/
theorem gridplot_init_requires_gridspace {σ : Type} (layout : PyLayoutArg)
    (create : Except String σ) :
    (layout.isGridSpaceInstance = false →
      GridPlot.init layout create = Except.error "GridPlot only accepts GridSpace.")
    ∧ (∀ s, GridPlot.init layout create = Except.ok s →
        layout.isGridSpaceInstance = true) := by
  constructor
  · intro h
    simp [GridPlot.init, h]
  · intro s h
    cases hval : layout.isGridSpaceInstance
    · simp [GridPlot.init, hval] at h
    · rfl

/-- Witness for C9: a non GridSpace layout is rejected even though the
subplot construction would have succeeded. -/
theorem gridplot_init_requires_gridspace_witness :
    GridPlot.init (σ := Nat) ⟨false, (3, 2)⟩ (Except.ok 0)
      = Except.error "GridPlot only accepts GridSpace." :=
  (gridplot_init_requires_gridspace ⟨false, (3, 2)⟩ (Except.ok 0)).1 rfl

/-
  Title refresh steps of GridPlot.update_frame (plot.py lines 651-653)
  and LayoutPlot.update_frame (plot.py lines 950-952).
-/

/-- The title refresh step at the end of GridPlot.update_frame (plot.py
lines 651-653).  After computing the title the code merely evaluates the
expression self.handles["title"]: nothing is stored, and when the handle
is absent the subscript raises KeyError.  Handles are modelled as a dict
of div identifiers and the computed title div as an optional identifier
(None for an empty title). -/
def GridPlot.update_frame_title_step (handles : List (String × Nat))
    (title : Option Nat) : Except String (List (String × Nat)) :=
  match title with
  | none => Except.ok handles
  | some _ =>
      match dict_lookup handles "title" with
      | some _ => Except.ok handles
      | none => Except.error "KeyError: title"

/-- The title refresh step at the end of LayoutPlot.update_frame (plot.py
lines 950-952): a non empty title div is stored under the "title" handle. -/
def LayoutPlot.update_frame_title_step (handles : List (String × Nat))
    (title : Option Nat) : List (String × Nat) :=
  match title with
  | none => handles
  | some d => dict_update handles [("title", d)]

/-- C10 (code bug): the two update_frame title refresh steps are not the
same.  With no existing title handle and a freshly built non empty title
div (id 7), LayoutPlot stores the div while GridPlot raises KeyError;
with an existing handle (id 3) GridPlot still stores nothing. -/
theorem update_frame_title_steps_differ :
    GridPlot.update_frame_title_step [] (some 7) = Except.error "KeyError: title"
    ∧ LayoutPlot.update_frame_title_step [] (some 7) = [("title", 7)]
    ∧ GridPlot.update_frame_title_step [("title", 3)] (some 7)
        = Except.ok [("title", 3)] :=
  ⟨rfl, rfl, rfl⟩

/-
  Frame update traversals: GridPlot.update_frame (plot.py lines 639-653)
  and LayoutPlot.update_frame (plot.py lines 938-952).
-/

/-- Embeds the subplot traversal of GridPlot.update_frame (plot.py lines
646-650): for every key of layout.keys(full_grid=True) the subplot
stored for the wrapped coordinate, when there is one, receives one
update_frame(key, ranges) call; coordinates without a subplot are
skipped.  Coordinates are modelled after wrap_tuple, and a call is
recorded as (coordinate, subplot, key, ranges). -/
def GridPlot.update_frame_calls {α β κ ρ : Type} (fullGridKeys : List α)
    (subplots : α → Option β) (key : κ) (ranges : ρ) : List (α × β × κ × ρ) :=
  fullGridKeys.filterMap (fun coord =>
    (subplots coord).map (fun sp => (coord, sp, key, ranges)))

/-- Embeds the subplot traversal of LayoutPlot.update_frame (plot.py
lines 945-949): for every (r, c) in self.coords the subplot at that
coordinate, when there is one, receives one update_frame(key, ranges)
call; coordinates without a subplot are skipped. -/
def LayoutPlot.update_frame_calls {β κ ρ : Type} (coords : List (Nat × Nat))
    (subplots : Nat × Nat → Option β) (key : κ) (ranges : ρ) :
    List ((Nat × Nat) × β × κ × ρ) :=
  coords.filterMap (fun coord =>
    (subplots coord).map (fun sp => (coord, sp, key, ranges)))

lemma calls_countP_eq {α β κ ρ : Type} [DecidableEq α]
    (subplots : α → Option β) (key : κ) (ranges : ρ) (coord : α) :
    ∀ (coords : List α),
      ((coords.filterMap (fun c0 =>
          (subplots c0).map (fun sp => (c0, sp, key, ranges)))).countP
          (fun call => decide (call.1 = coord)))
        = coords.countP (fun c0 => decide (c0 = coord) && (subplots c0).isSome) := by
  intro coords
  induction coords with
  | nil => rfl
  | cons c0 cs ih =>
      cases hsub : subplots c0 with
      | none => simp [List.filterMap_cons, hsub, List.countP_cons, ih]
      | some sp => simp [List.filterMap_cons, hsub, List.countP_cons, ih]

lemma countP_key_nodup {α : Type} [DecidableEq α] (coord : α) (q : α → Bool) :
    ∀ (coords : List α), coords.Nodup → coord ∈ coords →
      coords.countP (fun c0 => decide (c0 = coord) && q c0)
        = if q coord then 1 else 0 := by
  intro coords
  induction coords with
  | nil => intro _ h; exact absurd h (List.not_mem_nil coord)
  | cons c0 cs ih =>
      intro hnd hmem
      have hnd2 : cs.Nodup := (List.nodup_cons.mp hnd).2
      have hc0 : c0 ∉ cs := (List.nodup_cons.mp hnd).1
      rw [List.countP_cons]
      by_cases hco : c0 = coord
      · subst hco
        have hcnt : cs.countP (fun c1 => decide (c1 = c0) && q c1) = 0 := by
          rw [List.countP_eq_zero]
          intro a ha
          have hne : a ≠ c0 := fun h => hc0 (h ▸ ha)
          simp [hne]
        rw [hcnt]
        cases hq : q c0 <;> simp [hq]
      · have hmem2 : coord ∈ cs := by
          cases List.mem_cons.mp hmem with
          | inl h => exact absurd h.symm hco
          | inr h => exact h
        rw [ih hnd2 hmem2]
        simp [hco]

lemma countP_key_not_mem {α : Type} [DecidableEq α] (coord : α) (q : α → Bool)
    (coords : List α) (hmem : coord ∉ coords) :
    coords.countP (fun c0 => decide (c0 = coord) && q c0) = 0 := by
  rw [List.countP_eq_zero]
  intro a ha
  have hne : a ≠ coord := fun h => hmem (h ▸ ha)
  simp [hne]

lemma calls_mem {α β κ ρ : Type} (subplots : α → Option β) (key : κ) (ranges : ρ)
    (coords : List α) :
    ∀ call ∈ coords.filterMap (fun c0 =>
        (subplots c0).map (fun sp => (c0, sp, key, ranges))),
      subplots call.1 = some call.2.1 ∧ call.2.2.1 = key ∧ call.2.2.2 = ranges := by
  intro call hcall
  rw [List.mem_filterMap] at hcall
  obtain ⟨c0, hc0, hmap⟩ := hcall
  cases hsub : subplots c0 with
  | none => rw [hsub] at hmap; simp at hmap
  | some sp =>
      rw [hsub] at hmap
      have hcalleq : call = (c0, sp, key, ranges) := by simpa using hmap.symm
      subst hcalleq
      exact ⟨hsub, rfl, rfl⟩

/-- C4: in both update_frame traversals every coordinate holding a
subplot receives exactly one update call carrying the given key and the
freshly computed ranges, and coordinates without a subplot are skipped
without error: the number of recorded calls at a coordinate is one when
a subplot exists there and zero otherwise, and every recorded call
targets the subplot stored at its coordinate with that key and ranges. -/
theorem update_frame_reaches_each_subplot_once {α β κ ρ : Type} [DecidableEq α]
    (fullGridKeys : List α) (gsub : α → Option β)
    (coords : List (Nat × Nat)) (lsub : Nat × Nat → Option β)
    (key : κ) (ranges : ρ) (hg : fullGridKeys.Nodup) (hl : coords.Nodup)
    (coordg : α) (coordl : Nat × Nat)
    (hmg : coordg ∈ fullGridKeys) (hml : coordl ∈ coords) :
    ((GridPlot.update_frame_calls fullGridKeys gsub key ranges).countP
        (fun call => decide (call.1 = coordg))
      = if (gsub coordg).isSome then 1 else 0)
    ∧ (∀ call ∈ GridPlot.update_frame_calls fullGridKeys gsub key ranges,
        gsub call.1 = some call.2.1 ∧ call.2.2.1 = key ∧ call.2.2.2 = ranges)
    ∧ ((LayoutPlot.update_frame_calls coords lsub key ranges).countP
        (fun call => decide (call.1 = coordl))
      = if (lsub coordl).isSome then 1 else 0)
    ∧ (∀ call ∈ LayoutPlot.update_frame_calls coords lsub key ranges,
        lsub call.1 = some call.2.1 ∧ call.2.2.1 = key ∧ call.2.2.2 = ranges) :=
  ⟨(calls_countP_eq gsub key ranges coordg fullGridKeys).trans
      (countP_key_nodup coordg (fun c0 => (gsub c0).isSome) fullGridKeys hg hmg),
   calls_mem gsub key ranges fullGridKeys,
   (calls_countP_eq lsub key ranges coordl coords).trans
      (countP_key_nodup coordl (fun c0 => (lsub c0).isSome) coords hl hml),
   calls_mem lsub key ranges coords⟩

/-- Witness for C4 on a 1 by 2 grid with a subplot only at (0, 0) and a
layout with coords [(0, 0), (0, 1)] and a subplot only at (0, 1). -/
theorem update_frame_reaches_each_subplot_once_witness :
    ((GridPlot.update_frame_calls [(0, 0), (0, 1)]
        (fun rc => if rc = ((0, 0) : Nat × Nat) then some 5 else none) 3 4).countP
        (fun call => decide (call.1 = ((0, 0) : Nat × Nat)))
      = if ((fun rc => if rc = ((0, 0) : Nat × Nat) then some 5 else none) (0, 0)).isSome
        then 1 else 0)
    ∧ (∀ call ∈ GridPlot.update_frame_calls [(0, 0), (0, 1)]
        (fun rc => if rc = ((0, 0) : Nat × Nat) then some 5 else none) 3 4,
        (fun rc => if rc = ((0, 0) : Nat × Nat) then some 5 else none) call.1
            = some call.2.1
          ∧ call.2.2.1 = 3 ∧ call.2.2.2 = 4)
    ∧ ((LayoutPlot.update_frame_calls [(0, 0), (0, 1)]
        (fun rc => if rc = ((0, 1) : Nat × Nat) then some 6 else none) 3 4).countP
        (fun call => decide (call.1 = ((0, 0) : Nat × Nat)))
      = if ((fun rc => if rc = ((0, 1) : Nat × Nat) then some 6 else none) (0, 0)).isSome
        then 1 else 0)
    ∧ (∀ call ∈ LayoutPlot.update_frame_calls [(0, 0), (0, 1)]
        (fun rc => if rc = ((0, 1) : Nat × Nat) then some 6 else none) 3 4,
        (fun rc => if rc = ((0, 1) : Nat × Nat) then some 6 else none) call.1
            = some call.2.1
          ∧ call.2.2.1 = 3 ∧ call.2.2.2 = 4) :=
  update_frame_reaches_each_subplot_once [(0, 0), (0, 1)]
    (fun rc => if rc = ((0, 0) : Nat × Nat) then some 5 else none)
    [(0, 0), (0, 1)]
    (fun rc => if rc = ((0, 1) : Nat × Nat) then some 6 else none)
    3 4 (by decide) (by decide) (0, 0) (0, 0) (by decide) (by decide)

/-
  Subplot creation: GridPlot._create_subplots (plot.py lines 482-554)
  and LayoutPlot._create_subplots (plot.py lines 739-809).
-/

/-- Exact Python class of a view object; Other covers every concrete
element or container type with no special handling in this module. -/
inductive VType where
  | Layout
  | NdLayout
  | Empty
  | Other (n : Nat)
deriving DecidableEq

/-- A view object as the two _create_subplots methods inspect it:
its exact class, whether it is a HoloMap and carries a plotted type,
whether it is displayable and whether traversing it finds any Element
or Empty contents. -/
structure View where
  exactType : VType
  isHoloMap : Bool
  holoMapType : VType
  displayable : Bool
  hasElements : Bool
deriving DecidableEq

/-- The plotting type of a view: view.type for HoloMaps and the exact
class otherwise. -/
def View.vtype (v : View) : VType :=
  if v.isHoloMap then v.holoMapType else v.exactType

/-- Warning issued when no plotting class is registered for a type
(plot.py lines 542-543 and 789-790). -/
def missing_class_warning : String :=
  "Bokeh plotting class for type not found, object will not be rendered."

/-- Embeds the body of the per coordinate loop of
GridPlot._create_subplots (plot.py lines 493-553) for one coordinate:
the view found there (None for an empty coordinate), the exact type
check raising SkipRendering for nested Layout or NdLayout views, the
collate fallback for non displayable views, the registry lookup keyed by
the plotting type computed before collation, and the warning for a
missing plotting class.  A created subplot is recorded as the registry
class id paired with the plotted view; the axis kwargs are modelled
separately by GridPlot.create_subplots_kwargs. -/
def GridPlot.create_subplots_step (registry : VType → Option Nat)
    (collate : View → View) (view : Option View) :
    Except String (Option (Nat × View) × List String) :=
  match view with
  | none => Except.ok (none, [])
  | some v =>
      if v.exactType = VType.Layout ∨ v.exactType = VType.NdLayout then
        Except.error "Cannot plot nested Layouts."
      else
        let v2 := if v.displayable then v else collate v
        match registry v.vtype with
        | none => Except.ok (none, [missing_class_warning])
        | some cls => Except.ok (some (cls, v2), [])

/-- The per coordinate loop of GridPlot._create_subplots over the full
grid coordinates: a SkipRendering raise aborts the whole loop, created
subplots are collected per coordinate and warnings in order. -/
def GridPlot.create_subplots_loop {κ : Type} (registry : VType → Option Nat)
    (collate : View → View) :
    List (κ × Option View) → Except String (List (κ × Nat × View) × List String)
  | [] => Except.ok ([], [])
  | (k, view) :: rest =>
      match GridPlot.create_subplots_step registry collate view with
      | Except.error e => Except.error e
      | Except.ok (sub, warns) =>
          match GridPlot.create_subplots_loop registry collate rest with
          | Except.error e => Except.error e
          | Except.ok (subs, ws) =>
              Except.ok ((match sub with
                          | some s => (k, s) :: subs
                          | none => subs), warns ++ ws)

/-- AdjointLayoutPlot.registry as this module defines it (plot.py line
962): an empty dict. -/
def AdjointLayoutPlot.registry : VType → Option Nat := fun _ => none

/-- Positions of an AdjointLayout: main, right or top. -/
inductive Pos where
  | main
  | right
  | top
deriving DecidableEq

/-- Embeds the body of the per position loop of
LayoutPlot._create_subplots (plot.py lines 750-807): missing or element
free views are skipped silently, non displayable views are collated
before the type is computed, the plot type is looked up in the backend
registry and, for side positions, overridden by
AdjointLayoutPlot.registry, Empty views store a None subplot entry, a
missing plot type warns and skips, and otherwise a subplot is created.
The first component is None when no entry is stored in the subplots
dict, and Some of the stored entry (itself None for Empty) otherwise;
the side axis options only configure the created subplot and are not
modelled. -/
def LayoutPlot.create_subplots_step (registry : VType → Option Nat)
    (collate : View → View) (pos : Pos) (element : Option View) :
    Option (Option (Nat × View)) × List String :=
  match element with
  | none => (none, [])
  | some e =>
      if e.hasElements = false then (none, [])
      else
        let e2 := if e.displayable then e else collate e
        let vtype := e2.vtype
        let plot_type := registry vtype
        let plot_type := if pos = Pos.main then plot_type
          else
            match AdjointLayoutPlot.registry vtype with
            | some p => some p
            | none => plot_type
        if vtype = VType.Empty then (some none, [])
        else
          match plot_type with
          | none => (none, [missing_class_warning])
          | some cls => (some (some (cls, e2)), [])

/-- The per position loop of LayoutPlot._create_subplots; no exception
is raised, each position contributes its stored entry (if any) and its
warnings in order. -/
def LayoutPlot.create_subplots_loop (registry : VType → Option Nat)
    (collate : View → View) :
    List (Pos × Option View) → List (Pos × Option (Nat × View)) × List String
  | [] => ([], [])
  | (pos, element) :: rest =>
      let step := LayoutPlot.create_subplots_step registry collate pos element
      let restRes := LayoutPlot.create_subplots_loop registry collate rest
      ((match step.1 with
        | some entry => (pos, entry) :: restRes.1
        | none => restRes.1), step.2 ++ restRes.2)

/-- C6: the per coordinate step of GridPlot._create_subplots raises
SkipRendering exactly when the view present at the coordinate has exact
type Layout or NdLayout; the raise happens before any subplot is created
for that coordinate (an error result carries no subplot) and no other
view type triggers it there. -/
theorem grid_skip_rendering_iff (registry : VType → Option Nat)
    (collate : View → View) (view : Option View) :
    (GridPlot.create_subplots_step registry collate view
        = Except.error "Cannot plot nested Layouts.")
      ↔ (∃ v, view = some v
          ∧ (v.exactType = VType.Layout ∨ v.exactType = VType.NdLayout)) := by
  cases view with
  | none => simp [GridPlot.create_subplots_step]
  | some v =>
      by_cases h : v.exactType = VType.Layout ∨ v.exactType = VType.NdLayout
      · constructor
        · intro _
          exact ⟨v, rfl, h⟩
        · intro _
          simp [GridPlot.create_subplots_step, h]
      · constructor
        · intro hcontra
          simp only [GridPlot.create_subplots_step, if_neg h] at hcontra
          cases hreg : registry v.vtype <;> rw [hreg] at hcontra <;>
            simp at hcontra
        · rintro ⟨v2, hv2, hty⟩
          cases hv2
          exact absurd hty h

/-- Witness for C6: a nested Layout view raises SkipRendering. -/
theorem grid_skip_rendering_iff_witness :
    GridPlot.create_subplots_step (fun _ => none) id
        (some ⟨VType.Layout, false, VType.Layout, true, true⟩)
      = Except.error "Cannot plot nested Layouts." :=
  (grid_skip_rendering_iff (fun _ => none) id
      (some ⟨VType.Layout, false, VType.Layout, true, true⟩)).mpr
    ⟨⟨VType.Layout, false, VType.Layout, true, true⟩, rfl, Or.inl rfl⟩

/-- C7: when the backend registry holds no plotting class for the type
of an element, the per coordinate step of GridPlot._create_subplots and
the per position step of LayoutPlot._create_subplots both emit the not
rendered warning and create no subplot, and the enclosing loops carry on
with the remaining elements instead of raising. -/
theorem missing_plotting_class_warns_and_continues {κ : Type}
    (registry : VType → Option Nat) (collate : View → View) (v e e2 : View)
    (hv1 : registry v.vtype = none)
    (hv2 : ¬ (v.exactType = VType.Layout ∨ v.exactType = VType.NdLayout))
    (he1 : e.hasElements = true)
    (hcol : (if e.displayable then e else collate e) = e2)
    (he2 : e2.vtype ≠ VType.Empty)
    (he3 : registry e2.vtype = none) :
    GridPlot.create_subplots_step registry collate (some v)
        = Except.ok (none, [missing_class_warning])
    ∧ (∀ (k : κ) (rest : List (κ × Option View)),
        GridPlot.create_subplots_loop registry collate ((k, some v) :: rest)
          = (GridPlot.create_subplots_loop registry collate rest).map
              (fun p => (p.1, missing_class_warning :: p.2)))
    ∧ (∀ pos, LayoutPlot.create_subplots_step registry collate pos (some e)
        = (none, [missing_class_warning]))
    ∧ (∀ (pos : Pos) (rest : List (Pos × Option View)),
        LayoutPlot.create_subplots_loop registry collate ((pos, some e) :: rest)
          = ((LayoutPlot.create_subplots_loop registry collate rest).1,
             missing_class_warning
               :: (LayoutPlot.create_subplots_loop registry collate rest).2)) := by
  have hgstep : GridPlot.create_subplots_step registry collate (some v)
      = Except.ok (none, [missing_class_warning]) := by
    simp [GridPlot.create_subplots_step, hv2, hv1]
  have hlstep : ∀ pos, LayoutPlot.create_subplots_step registry collate pos (some e)
      = (none, [missing_class_warning]) := by
    intro pos
    cases pos <;>
      simp [LayoutPlot.create_subplots_step, he1, hcol, he2, he3,
        AdjointLayoutPlot.registry]
  refine ⟨hgstep, ?_, hlstep, ?_⟩
  · intro k rest
    simp only [GridPlot.create_subplots_loop, hgstep]
    cases hrest : GridPlot.create_subplots_loop registry collate rest with
    | error err => rfl
    | ok p => rfl
  · intro pos rest
    simp only [LayoutPlot.create_subplots_loop, hlstep]
    rfl

/-- Witness for C7: with an empty registry, an ordinary element view
warns and is skipped while both loops keep going. -/
theorem missing_plotting_class_warns_and_continues_witness :
    GridPlot.create_subplots_step (fun _ => none) id
        (some ⟨VType.Other 0, false, VType.Other 0, true, true⟩)
      = Except.ok (none, [missing_class_warning])
    ∧ (∀ (k : Nat) (rest : List (Nat × Option View)),
        GridPlot.create_subplots_loop (fun _ => none) id
            ((k, some ⟨VType.Other 0, false, VType.Other 0, true, true⟩) :: rest)
          = (GridPlot.create_subplots_loop (fun _ => none) id rest).map
              (fun p => (p.1, missing_class_warning :: p.2)))
    ∧ (∀ pos, LayoutPlot.create_subplots_step (fun _ => none) id pos
        (some ⟨VType.Other 0, false, VType.Other 0, true, true⟩)
        = (none, [missing_class_warning]))
    ∧ (∀ (pos : Pos) (rest : List (Pos × Option View)),
        LayoutPlot.create_subplots_loop (fun _ => none) id
            ((pos, some ⟨VType.Other 0, false, VType.Other 0, true, true⟩) :: rest)
          = ((LayoutPlot.create_subplots_loop (fun _ => none) id rest).1,
             missing_class_warning
               :: (LayoutPlot.create_subplots_loop (fun _ => none) id rest).2)) :=
  missing_plotting_class_warns_and_continues (κ := Nat) (fun _ => none) id
    ⟨VType.Other 0, false, VType.Other 0, true, true⟩
    ⟨VType.Other 0, false, VType.Other 0, true, true⟩
    ⟨VType.Other 0, false, VType.Other 0, true, true⟩
    rfl (by decide) rfl rfl (by decide) rfl

/-
  BokehPlot.sync_sources (plot.py lines 293-337).
-/

/-- The current frame of an element plot: the identity of its data
object and whether that data is a numpy array. -/
structure Frame where
  dataId : Nat
  dataIsNdarray : Bool
deriving DecidableEq

/-- A bokeh ColumnDataSource, carrying its data dict (column name to
value id). -/
structure CDS where
  data : List (String × Nat)
deriving DecidableEq

/-- The slice of an element plot that sync_sources reads and writes:
the shared_datasource option, the current frame, the source and cds
handles and whether a glyph_renderer handle is present. -/
structure PlotState where
  shared_datasource : Bool
  current_frame : Option Frame
  source : Option CDS
  cds : Option CDS
  glyph_renderer : Bool
deriving DecidableEq

/-- The filter applied by sync_sources when traversing plots (plot.py
lines 299-301): shared_datasource enabled, a current frame whose data is
not a numpy array, and a source handle. -/
def filter_fn (p : PlotState) : Bool :=
  p.shared_datasource &&
    (match p.current_frame with
     | some f => ! f.dataIsNdarray
     | none => false) &&
    p.source.isSome

/-- The grouping key of sync_sources: id(x.current_frame.data). -/
def frame_data_id (p : PlotState) : Option Nat :=
  p.current_frame.map Frame.dataId

/-- The group of plots sharing the data object with the given id among
the plots passing the filter, in traversal order (sorted is stable, so
groupby over the sort by key preserves the traversal order inside each
group). -/
def source_group (plots : List PlotState) (d : Option Nat) : List PlotState :=
  (plots.filter filter_fn).filter (fun p => decide (frame_data_id p = d))

/-- The data dict of the source handle of a plot (empty when absent). -/
def source_data (p : PlotState) : List (String × Nat) :=
  match p.source with
  | some s => s.data
  | none => []

/-- The merged dict of the new shared ColumnDataSource for a group:
source_data.update over the sources of the group in traversal order
(plot.py lines 310-312). -/
def merged_source_data (plots : List PlotState) (d : Option Nat) :
    List (String × Nat) :=
  (source_group plots d).foldl (fun acc p => dict_update acc (source_data p)) []

/-- The effect of sync_sources on one plot (plot.py lines 307-327): a
plot passing the filter whose data object is shared by at least one
other filtered plot and which has a glyph renderer handle stores the
newly built shared ColumnDataSource under both its source and cds
handles; every other plot is left untouched, in particular a plot
without a glyph renderer is skipped by the continue at line 318. -/
def sync_sources_plot (plots : List PlotState) (p : PlotState) : PlotState :=
  if filter_fn p && decide (1 < (source_group plots (frame_data_id p)).length) then
    if p.glyph_renderer then
      { p with source := some ⟨merged_source_data plots (frame_data_id p)⟩,
               cds := some ⟨merged_source_data plots (frame_data_id p)⟩ }
    else p
  else p

/-- BokehPlot.sync_sources over the full traversal of plots. -/
def BokehPlot.sync_sources (plots : List PlotState) : List PlotState :=
  plots.map (sync_sources_plot plots)

/-- A plot with a glyph renderer handle, sharing data object 0. -/
def plotA : PlotState :=
  ⟨true, some ⟨0, false⟩, some ⟨[("x", 1)]⟩, none, true⟩

/-- A plot without a glyph renderer handle, sharing data object 0. -/
def plotB : PlotState :=
  ⟨true, some ⟨0, false⟩, some ⟨[("y", 2)]⟩, none, false⟩

/-- Counterexample to C2 as stated: plotA and plotB pass the filter and
share data object 0, so they form a group of two, yet after sync_sources
plotB, which has no glyph renderer handle, keeps its original source
instead of holding the newly built shared ColumnDataSource under its
source and cds handles. -/
theorem sync_sources_counterexample :
    filter_fn plotB = true
    ∧ 1 < (source_group [plotA, plotB] (frame_data_id plotB)).length
    ∧ (BokehPlot.sync_sources [plotA, plotB]).get? 1 = some plotB
    ∧ plotB.source ≠ some ⟨merged_source_data [plotA, plotB] (frame_data_id plotB)⟩
    ∧ plotB.cds ≠ some ⟨merged_source_data [plotA, plotB] (frame_data_id plotB)⟩ := by
  decide

/-- C2 amended: after sync_sources, every plot passing the filter whose
data object is shared with at least one other filtered plot and which
has a glyph renderer handle holds the newly built shared
ColumnDataSource, whose data is the dict merge of the previous source
data of the group in traversal order, under both its source and cds
handles (one and the same value for the whole group); every other plot,
in particular one without a glyph renderer handle or one sharing its
data object with no other filtered plot, is left entirely unchanged. -/
theorem sync_sources_amended (plots : List PlotState) (i : Nat) (p : PlotState)
    (hp : plots.get? i = some p) :
    (BokehPlot.sync_sources plots).get? i = some (sync_sources_plot plots p)
    ∧ (filter_fn p = true →
        1 < (source_group plots (frame_data_id p)).length →
        p.glyph_renderer = true →
        (sync_sources_plot plots p).source
            = some ⟨merged_source_data plots (frame_data_id p)⟩
          ∧ (sync_sources_plot plots p).cds
            = some ⟨merged_source_data plots (frame_data_id p)⟩)
    ∧ ((filter_fn p = false ∨ (source_group plots (frame_data_id p)).length ≤ 1
          ∨ p.glyph_renderer = false) →
        sync_sources_plot plots p = p) := by
  refine ⟨?_, ?_, ?_⟩
  · unfold BokehPlot.sync_sources
    rw [List.get?_eq_getElem?] at hp
    rw [List.get?_eq_getElem?, List.getElem?_map, hp]
    rfl
  · intro h1 h2 h3
    unfold sync_sources_plot
    simp [h1, h2, h3]
  · intro hcase
    unfold sync_sources_plot
    rcases hcase with h | h | h
    · simp [h]
    · have hlen : decide (1 < (source_group plots (frame_data_id p)).length)
          = false := by
        simp
        omega
      simp [hlen]
    · cases hcond : (filter_fn p
          && decide (1 < (source_group plots (frame_data_id p)).length)) <;>
        simp [hcond, h]

/-- Witness for the amended C2 on the two plot group [plotA, plotB]:
plotA, which has a glyph renderer, receives the merged shared source
under both handles. -/
theorem sync_sources_amended_witness :
    (BokehPlot.sync_sources [plotA, plotB]).get? 0
        = some (sync_sources_plot [plotA, plotB] plotA)
    ∧ (filter_fn plotA = true →
        1 < (source_group [plotA, plotB] (frame_data_id plotA)).length →
        plotA.glyph_renderer = true →
        (sync_sources_plot [plotA, plotB] plotA).source
            = some ⟨merged_source_data [plotA, plotB] (frame_data_id plotA)⟩
          ∧ (sync_sources_plot [plotA, plotB] plotA).cds
            = some ⟨merged_source_data [plotA, plotB] (frame_data_id plotA)⟩)
    ∧ ((filter_fn plotA = false
          ∨ (source_group [plotA, plotB] (frame_data_id plotA)).length ≤ 1
          ∨ plotA.glyph_renderer = false) →
        sync_sources_plot [plotA, plotB] plotA = plotA) :=
  sync_sources_amended [plotA, plotB] 0 plotA (by decide)

/-
  LayoutPlot.initialize_plot (plot.py lines 843-936), its helper
  _compute_grid (lines 812-840) and the tab assembly.
-/

/-- A bokeh model as this module assembles it: a figure-like child
returned by a subplot, a gridplot of optional children, a Tabs widget of
titled panels, or the final non tabs grid assembly whose util post
processing (layout_padding, pad_plots, filter_toolboxes live outside
this module) is left abstract. -/
inductive BModel where
  | fig (n : Nat)
  | grid (children : List (List (Option BModel)))
  | tabs (panels : List (String × BModel))
  | assembled (children : List (List (Option BModel)))

/-- An AdjointLayout subplot of a LayoutPlot as initialize_plot uses it:
the formatted title of its main subplot (dimensions excluded), the list
of adjoined bokeh models its initialize_plot call returns, and the
length of its layout, used for row and column padding. -/
structure ALSubplot where
  main_title : String
  rendered : List BModel
  layout_len : Nat

/-- Embeds LayoutPlot._compute_grid (plot.py lines 812-840): expands
AdjointLayouts into extra rows and columns and returns an empty grid of
None entries.  Python max over the nonempty per row and per column lists
of values drawn from 1 and 2 equals a fold of max seeded with 1. -/
def LayoutPlot.compute_grid (rows cols : Nat)
    (subplots : Nat × Nat → Option ALSubplot) : List (List (Option BModel)) :=
  let widths := (List.range cols).map (fun c =>
    ((List.range rows).map (fun r =>
      match subplots (r, c) with
      | none => 1
      | some sp => if 1 < sp.layout_len then 2 else 1)).foldl max 1)
  let heights := (List.range rows).map (fun r =>
    ((List.range cols).map (fun c =>
      match subplots (r, c) with
      | none => 1
      | some sp => if 2 < sp.layout_len then 2 else 1)).foldl max 1)
  List.replicate heights.sum (List.replicate widths.sum none)

/-- Write one cell of the plots grid; a row index outside the grid is
ignored (the Python code never reaches that case on the inputs the
claims quantify over, and the tabs branch never writes at all). -/
def grid_set (g : List (List (Option BModel))) (r c : Nat) (v : Option BModel) :
    List (List (Option BModel)) :=
  match g.get? r with
  | none => g
  | some row => g.set r (row.set c v)

/-- Mutable state of the initialize_plot double loop: the plots grid,
the row offset, the per row column offsets and the collected tab
panels.  The passed_plots list only feeds the subplot initialization,
whose outcome is already recorded in ALSubplot.rendered, so it is not
modelled. -/
structure LayoutLoopState where
  plot_grid : List (List (Option BModel))
  r_offset : Nat
  col_offsets : Nat → Nat
  tab_plots : List (String × BModel)

/-- The panel title in the tabs branch (plot.py lines 878-881): the
formatted title of the main subplot or, when that is empty, the joined
layout path at the coordinate. -/
def tab_title (paths : Nat × Nat → List String) (sp : ALSubplot) (r c : Nat) :
    String :=
  if sp.main_title = "" then String.intercalate " " (paths (r, c))
  else sp.main_title

/-- The child model of a panel in the tabs branch (plot.py lines
882-890): a single subplot is used directly, two subplots form one
gridplot row, and three or more are arranged with the top marginal above
the main and right subplots. -/
def tab_child (subs : List BModel) : BModel :=
  if subs.length = 1 then subs.headD (BModel.fig 0)
  else if subs.length = 2 then BModel.grid [subs.map some]
  else BModel.grid [[subs.get? 2, none], (subs.take 2).map some]

/-- Whether any subplot in column c expands to an extra column (plot.py
lines 863-866); the subplots dict holds coordinates inside the grid
bounds, so iterating its items equals iterating the coordinate range. -/
def col_padded (rows : Nat) (subplots : Nat × Nat → Option ALSubplot)
    (c : Nat) : Bool :=
  (List.range rows).any (fun r =>
    match subplots (r, c) with
    | none => false
    | some sp => decide (1 < sp.layout_len))

/-- Whether any subplot in row r expands to an extra row (plot.py lines
853-857). -/
def row_padded (cols : Nat) (subplots : Nat × Nat → Option ALSubplot)
    (r : Nat) : Bool :=
  (List.range cols).any (fun c =>
    match subplots (r, c) with
    | none => false
    | some sp => decide (2 < sp.layout_len))

/-- Embeds the inner loop body of LayoutPlot.initialize_plot (plot.py
lines 859-903) for one (r, c) cell.  The grid index arithmetic uses
truncated subtraction; the Python code only subtracts after the matching
offset was incremented, so no index is negative there. -/
def LayoutPlot.initialize_plot_cell (tabs : Bool) (rows : Nat)
    (subplots : Nat × Nat → Option ALSubplot) (paths : Nat × Nat → List String)
    (r : Nat) (st : LayoutLoopState) (c : Nat) : LayoutLoopState :=
  let padded := col_padded rows subplots c
  let st := if padded then
      { st with col_offsets := fun r2 =>
          if r2 = r then st.col_offsets r + 1 else st.col_offsets r2 }
    else st
  let c_offset := st.col_offsets r
  match subplots (r, c) with
  | none => st
  | some sp =>
      let subs := sp.rendered
      let nsubplots := subs.length
      if tabs then
        { st with tab_plots :=
            st.tab_plots ++ [(tab_title paths sp r c, tab_child subs)] }
      else
        let gTop := grid_set st.plot_grid (r + st.r_offset - 1) (c + c_offset - 1) (subs.get? 2)
        let st := if 2 < nsubplots then { st with plot_grid := gTop } else st
        if 1 < nsubplots then
          let gMain := grid_set st.plot_grid (r + st.r_offset) (c + c_offset - 1) (subs.get? 0)
          let gRight := grid_set gMain (r + st.r_offset) (c + c_offset) (subs.get? 1)
          { st with plot_grid := gRight }
        else
          let gSingle := grid_set st.plot_grid (r + st.r_offset) (c + c_offset - (if padded then 1 else 0)) (subs.get? 0)
          { st with plot_grid := gSingle }

/-- Embeds the row loop body of LayoutPlot.initialize_plot (plot.py
lines 852-903): the row offset grows for a padded row, then the inner
column loop runs. -/
def LayoutPlot.initialize_plot_row (tabs : Bool) (rows cols : Nat)
    (subplots : Nat × Nat → Option ALSubplot) (paths : Nat × Nat → List String)
    (st : LayoutLoopState) (r : Nat) : LayoutLoopState :=
  let st := if row_padded cols subplots r then
      { st with r_offset := st.r_offset + 1 }
    else st
  (List.range cols).foldl
    (LayoutPlot.initialize_plot_cell tabs rows subplots paths r) st

/-- Embeds LayoutPlot.initialize_plot (plot.py lines 843-936) without
the handles bookkeeping: after the double loop over the layout
coordinates, the top level model is a Tabs of the collected titled
panels when tabs is enabled and the assembled plot grid otherwise.  The
second component exposes the final plots grid. -/
def LayoutPlot.initialize_plot (tabs : Bool) (rows cols : Nat)
    (subplots : Nat × Nat → Option ALSubplot) (paths : Nat × Nat → List String) :
    BModel × List (List (Option BModel)) :=
  let st0 : LayoutLoopState :=
    ⟨LayoutPlot.compute_grid rows cols subplots, 0, fun _ => 0, []⟩
  let stF := (List.range rows).foldl
    (LayoutPlot.initialize_plot_row tabs rows cols subplots paths) st0
  if tabs then (BModel.tabs stF.tab_plots, stF.plot_grid)
  else (BModel.assembled stF.plot_grid, stF.plot_grid)

lemma initialize_plot_cell_tabs (rows : Nat)
    (subplots : Nat × Nat → Option ALSubplot) (paths : Nat × Nat → List String)
    (r : Nat) (st : LayoutLoopState) (c : Nat) :
    (LayoutPlot.initialize_plot_cell true rows subplots paths r st c).plot_grid
        = st.plot_grid
    ∧ (LayoutPlot.initialize_plot_cell true rows subplots paths r st c).r_offset
        = st.r_offset
    ∧ (LayoutPlot.initialize_plot_cell true rows subplots paths r st c).tab_plots
        = st.tab_plots
            ++ ((subplots (r, c)).map (fun sp =>
                  (tab_title paths sp r c, tab_child sp.rendered))).toList := by
  unfold LayoutPlot.initialize_plot_cell
  cases hpad : col_padded rows subplots c <;>
    cases hsub : subplots (r, c) <;>
      simp [hpad, hsub]

lemma initialize_plot_fold_tabs (rows : Nat)
    (subplots : Nat × Nat → Option ALSubplot) (paths : Nat × Nat → List String)
    (r : Nat) :
    ∀ (cs : List Nat) (st : LayoutLoopState),
      ((cs.foldl (LayoutPlot.initialize_plot_cell true rows subplots paths r)
          st).plot_grid = st.plot_grid)
      ∧ ((cs.foldl (LayoutPlot.initialize_plot_cell true rows subplots paths r)
          st).r_offset = st.r_offset)
      ∧ ((cs.foldl (LayoutPlot.initialize_plot_cell true rows subplots paths r)
          st).tab_plots
        = st.tab_plots ++ cs.filterMap (fun c =>
            (subplots (r, c)).map (fun sp =>
              (tab_title paths sp r c, tab_child sp.rendered)))) := by
  intro cs
  induction cs with
  | nil => intro st; simp
  | cons c cs ih =>
      intro st
      simp only [List.foldl_cons]
      obtain ⟨h1, h2, h3⟩ := initialize_plot_cell_tabs rows subplots paths r st c
      obtain ⟨g1, g2, g3⟩ :=
        ih (LayoutPlot.initialize_plot_cell true rows subplots paths r st c)
      refine ⟨g1.trans h1, g2.trans h2, ?_⟩
      rw [g3, h3]
      cases hsub : subplots (r, c) with
      | none => simp [List.filterMap_cons, hsub]
      | some sp => simp [List.filterMap_cons, hsub]

lemma initialize_plot_row_tabs (rows cols : Nat)
    (subplots : Nat × Nat → Option ALSubplot) (paths : Nat × Nat → List String)
    (st : LayoutLoopState) (r : Nat) :
    ((LayoutPlot.initialize_plot_row true rows cols subplots paths st r).plot_grid
        = st.plot_grid)
    ∧ ((LayoutPlot.initialize_plot_row true rows cols subplots paths st r).tab_plots
        = st.tab_plots ++ (List.range cols).filterMap (fun c =>
            (subplots (r, c)).map (fun sp =>
              (tab_title paths sp r c, tab_child sp.rendered)))) := by
  unfold LayoutPlot.initialize_plot_row
  cases hpad : row_padded cols subplots r
  · simp only [hpad, Bool.false_eq_true, if_false]
    exact ⟨(initialize_plot_fold_tabs rows subplots paths r (List.range cols) st).1,
      (initialize_plot_fold_tabs rows subplots paths r (List.range cols) st).2.2⟩
  · simp only [hpad, if_true]
    exact ⟨(initialize_plot_fold_tabs rows subplots paths r (List.range cols)
        { st with r_offset := st.r_offset + 1 }).1,
      (initialize_plot_fold_tabs rows subplots paths r (List.range cols)
        { st with r_offset := st.r_offset + 1 }).2.2⟩

lemma initialize_plot_rows_tabs (rows cols : Nat)
    (subplots : Nat × Nat → Option ALSubplot) (paths : Nat × Nat → List String) :
    ∀ (rs : List Nat) (st : LayoutLoopState),
      ((rs.foldl (LayoutPlot.initialize_plot_row true rows cols subplots paths)
          st).plot_grid = st.plot_grid)
      ∧ ((rs.foldl (LayoutPlot.initialize_plot_row true rows cols subplots paths)
          st).tab_plots
        = st.tab_plots ++ rs.flatMap (fun r => (List.range cols).filterMap (fun c =>
            (subplots (r, c)).map (fun sp =>
              (tab_title paths sp r c, tab_child sp.rendered))))) := by
  intro rs
  induction rs with
  | nil => intro st; simp
  | cons r rs ih =>
      intro st
      simp only [List.foldl_cons]
      obtain ⟨h1, h3⟩ := initialize_plot_row_tabs rows cols subplots paths st r
      obtain ⟨g1, g3⟩ :=
        ih (LayoutPlot.initialize_plot_row true rows cols subplots paths st r)
      refine ⟨g1.trans h1, ?_⟩
      rw [g3, h3]
      simp [List.append_assoc]

/-- C8: with tabs enabled, LayoutPlot.initialize_plot produces a Tabs
model containing exactly one panel per rendered AdjointLayout subplot,
in row major traversal order of the layout coordinates, each panel
titled with the formatted main title or, when that is empty, the joined
layout path; the overall plots grid is left exactly as _compute_grid
built it, with no subplot placed into it. -/
theorem layout_tabs_assembly (rows cols : Nat)
    (subplots : Nat × Nat → Option ALSubplot) (paths : Nat × Nat → List String) :
    (LayoutPlot.initialize_plot true rows cols subplots paths).1
      = BModel.tabs ((List.range rows).flatMap (fun r =>
          (List.range cols).filterMap (fun c =>
            (subplots (r, c)).map (fun sp =>
              (tab_title paths sp r c, tab_child sp.rendered)))))
    ∧ (LayoutPlot.initialize_plot true rows cols subplots paths).2
      = LayoutPlot.compute_grid rows cols subplots := by
  unfold LayoutPlot.initialize_plot
  obtain ⟨h1, h3⟩ := initialize_plot_rows_tabs rows cols subplots paths
    (List.range rows)
    ⟨LayoutPlot.compute_grid rows cols subplots, 0, fun _ => 0, []⟩
  simp only [if_true]
  constructor
  · rw [h3]
    simp
  · rw [h1]

end HoloviewsBokehPlot
